import Mathlib

/-!
Verification of the KlipperAI session/token lifecycle subsystem.

This file shallowly embeds the authentication core of the repository:

* the credential codec (src/api/modules/auth/service.py, generate_tokens /
  verify_token / hash_refresh_token),
* the session store and its schema constraints
  (src/shared/models/auth_session.py),
* the session lifecycle handlers (src/api/modules/auth/routers.py:
  register, login, refresh, logout; src/api/modules/auth/service.py:
  create_auth_session, validate_refresh_token, revoke_session,
  revoke_all_user_sessions), and
* the request gate (src/middleware/auth_middleware.py).

Modelling conventions:

* Clock values are natural numbers counting microseconds (Python datetime
  precision).  PyJWT serialises datetime claims at whole-second granularity
  (timegm of utctimetuple), embedded here as division by 1000000.
* The HMAC signature of a JWT is embedded symbolically as the pair of the
  signing key and the signed payload; this is the standard unforgeable-MAC
  idealisation.  sha256 of the refresh token is embedded as an injective
  digest constructor (collision-free idealisation).
* bcrypt password hashing is out of scope per the specification (treated
  as an abstract one-way verify/hash capability); it is embedded as
  identity/equality.
* Every router handler is a pure function from (store, clock, request
  inputs) to (result, store).  Python exceptions reaching the generic
  handler (for example an IntegrityError raised when a commit violates a
  schema constraint) are embedded as a serverError result with the
  transaction rolled back.
-/

/-- Process-wide settings (src/core/config.py): the JWT signing secret, the
access-token lifetime in minutes and the refresh-token lifetime in days. -/
structure Config where
  secret : Nat
  accessMin : Nat
  refreshDays : Nat
deriving DecidableEq

/-- Microseconds per day, used when a timedelta of days is added to a
microsecond-precision datetime. -/
def usPerDay : Nat := 86400 * 1000000

/-- PyJWT stores datetime claims as whole seconds: floor of microseconds. -/
def nowSec (t : Nat) : Nat := t / 1000000

/-- The JWT claim set built by AuthService.generate_tokens: user_id, exp,
iat and the type tag.  user_id is optional so that adversarial tokens whose
payload lacks the claim are representable (dict.get returns None). -/
structure JwtPayload where
  user_id : Option Int
  exp : Nat
  iat : Nat
  typ : String
deriving DecidableEq

/-- Symbolic HMAC signature: the signing key paired with the signed claim
set.  A signature matches exactly when it was produced with the same key
over the same payload, which is the unforgeable-MAC idealisation of
HS256. -/
structure Sig where
  key : Nat
  signedPayload : JwtPayload
deriving DecidableEq

/-- Signing: jwt.encode attaches the HMAC of the payload under the
process-wide secret. -/
def sign (secret : Nat) (p : JwtPayload) : Sig := ⟨secret, p⟩

/-- A token string as received on the wire: either a well-formed JWT
(payload plus signature) or arbitrary malformed text. -/
inductive Token where
  | jwt (p : JwtPayload) (sig : Sig)
  | malformed (s : String)
deriving DecidableEq

/-- The two failure classes PyJWT raises inside AuthService.verify_token:
ExpiredSignatureError and InvalidTokenError (which covers bad signatures
and malformed input). -/
inductive JwtError where
  | expired
  | invalid
deriving DecidableEq

/-- jwt.decode: fails invalid on malformed input or a signature mismatch,
fails expired when the exp claim is at or before the current whole second
(PyJWT rejects when exp is less than or equal to now), otherwise returns
the claim set. -/
def jwt_decode (secret : Nat) (t : Nat) : Token → Except JwtError JwtPayload
  | .malformed _ => .error .invalid
  | .jwt p sg =>
    if sg = sign secret p then
      if p.exp ≤ nowSec t then .error .expired else .ok p
    else .error .invalid

/-- AuthService.verify_token: decode, catching both PyJWT failure classes
into None, then return None when the type tag differs from the expected
token type.  Total by construction: it never throws. -/
def verify_token (secret : Nat) (t : Nat) (tok : Token) (token_type : String) :
    Option JwtPayload :=
  match jwt_decode secret t tok with
  | .error _ => none
  | .ok p => if p.typ = token_type then some p else none

/-- AuthService.generate_tokens, with the four datetime.now readings it
performs made explicit (access exp, access iat, refresh exp, refresh
iat).  A timedelta of whole minutes or days added to a microsecond clock
lands on the same microsecond offset, and PyJWT then floors each datetime
claim to whole seconds. -/
def generate_tokens_at (cfg : Config) (uid : Int) (t1 t2 t3 t4 : Nat) :
    Token × Token :=
  let accessPayload : JwtPayload :=
    { user_id := some uid
      exp := nowSec t1 + cfg.accessMin * 60
      iat := nowSec t2
      typ := "access" }
  let refreshPayload : JwtPayload :=
    { user_id := some uid
      exp := nowSec t3 + cfg.refreshDays * 86400
      iat := nowSec t4
      typ := "refresh" }
  (Token.jwt accessPayload (sign cfg.secret accessPayload),
   Token.jwt refreshPayload (sign cfg.secret refreshPayload))

/-- generate_tokens as called by the handlers, with one clock reading for
the whole call. -/
def generate_tokens (cfg : Config) (uid : Int) (t : Nat) : Token × Token :=
  generate_tokens_at cfg uid t t t t

/-- A sha256 digest of a token string, embedded as an injective constructor
(collision-free idealisation of the hash). -/
structure Hash where
  digest : Token
deriving DecidableEq

/-- AuthService.hash_refresh_token: sha256 of the token string. -/
def hash_refresh_token (tok : Token) : Hash := ⟨tok⟩

/-- Python truthiness of payload.get("user_id"): None and 0 are falsy. -/
def truthyId : Option Int → Option Int
  | none => none
  | some 0 => none
  | some n => some n

/-- A row of the users table (src/shared/models/user.py), with the password
verifier embedded abstractly. -/
structure UserRec where
  id : Int
  name : String
  email : String
  password_hash : String
deriving DecidableEq

/-- A row of the auth_sessions table (src/shared/models/auth_session.py). -/
structure AuthSession where
  id : Nat
  user_id : Int
  device_id : String
  refresh_token_hash : Hash
  revoked : Bool
  expires_at : Nat
  created_at : Nat
  last_used_at : Option Nat
  revoked_at : Option Nat
deriving DecidableEq

/-- The database: users and auth_sessions tables plus the autoincrement
counters for their primary keys. -/
structure DB where
  users : List UserRec
  sessions : List AuthSession
  nextUserId : Int
  nextSessionId : Nat
deriving DecidableEq

/-- The empty store. -/
def emptyDB : DB :=
  { users := [], sessions := [], nextUserId := 1, nextSessionId := 1 }

/-- Abstract one-way password capability, hash direction (bcrypt is out
of scope per the specification). -/
def hash_password (password : String) : String := password

/-- Abstract one-way password capability, verify direction. -/
def verify_password (password : String) (hashed : String) : Bool :=
  hashed = password

/-- The single UPDATE a commit issues for a mutated ORM row: rewrite the row
with the matching primary key, leave every other row unchanged. -/
def updateById (sid : Nat) (f : AuthSession → AuthSession)
    (l : List AuthSession) : List AuthSession :=
  l.map (fun r => if r.id = sid then f r else r)

/-- The field update performed by the refresh router at rotation time
(routers.py lines 319-321): replace the stored hash, stamp last_used_at and
slide expires_at by the refresh lifetime. -/
def rotateUpd (h2 : Hash) (t : Nat) (days : Nat) (r : AuthSession) :
    AuthSession :=
  { r with refresh_token_hash := h2, last_used_at := some t,
           expires_at := t + days * usPerDay }

/-- AuthService.revoke_all_user_sessions: every non-revoked session of the
user is marked revoked with a timestamp; other rows are untouched. -/
def revokeAllFor (u : Int) (t : Nat) (l : List AuthSession) :
    List AuthSession :=
  l.map (fun s =>
    if s.user_id = u ∧ s.revoked = false then
      { s with revoked := true, revoked_at := some t }
    else s)

/-- The first query of AuthService.create_auth_session: find the first
non-revoked session for the (user, device) pair and mark it revoked. -/
def revokeFirst (u : Int) (d : String) (t : Nat) :
    List AuthSession → List AuthSession
  | [] => []
  | s :: rest =>
    if s.user_id = u ∧ s.device_id = d ∧ s.revoked = false then
      { s with revoked := true, revoked_at := some t } :: rest
    else s :: revokeFirst u d t rest

/-- AuthService.create_auth_session: revoke the first existing non-revoked
session of the (user, device) pair, then insert a new row whose hash is the
digest of the presented refresh token and whose expiry is now plus the
refresh lifetime.  The commit enforces the schema of auth_sessions: the
UniqueConstraint on (user_id, device_id) over all rows and the unique
refresh_token_hash column.  A violating commit raises IntegrityError and
rolls the whole transaction back, embedded as none.  newSession is the row
the INSERT adds. -/
def newSession (cfg : Config) (db : DB) (t : Nat) (uid : Int)
    (refreshTok : Token) (dev : String) : AuthSession :=
  { id := db.nextSessionId
    user_id := uid
    device_id := dev
    refresh_token_hash := hash_refresh_token refreshTok
    revoked := false
    expires_at := t + cfg.refreshDays * usPerDay
    created_at := t
    last_used_at := none
    revoked_at := none }

/-- AuthService.create_auth_session, continued: the first guard is the
UniqueConstraint on (user_id, device_id), the second the unique
refresh_token_hash column. -/
def create_auth_session (cfg : Config) (db : DB) (t : Nat) (uid : Int)
    (refreshTok : Token) (dev : String) : Option (DB × AuthSession) :=
  if (revokeFirst uid dev t db.sessions).any
      (fun r => decide (r.user_id = uid ∧ r.device_id = dev)) then
    none
  else if (revokeFirst uid dev t db.sessions).any
      (fun r => decide (r.refresh_token_hash = hash_refresh_token refreshTok))
    then none
  else
    some ({ db with
              sessions := revokeFirst uid dev t db.sessions ++
                [newSession cfg db t uid refreshTok dev],
              nextSessionId := db.nextSessionId + 1 },
          newSession cfg db t uid refreshTok dev)

/-- AuthService.create_user: reject a duplicate email with ValueError,
otherwise insert the user and commit. -/
def create_user (db : DB) (name email password : String) :
    Option (DB × Int) :=
  if db.users.any (fun u => decide (u.email = email)) then none
  else
    let u : UserRec :=
      { id := db.nextUserId, name := name, email := email,
        password_hash := hash_password password }
    some ({ db with users := db.users ++ [u],
                    nextUserId := db.nextUserId + 1 }, u.id)

/-- AuthService.authenticate_user: look the user up by email and check the
password against the stored verifier. -/
def authenticate_user (db : DB) (email password : String) : Option Int :=
  match db.users.find? (fun u => decide (u.email = email)) with
  | none => none
  | some u => if verify_password password u.password_hash then some u.id
              else none

/-- The filter of the validate_refresh_token query (service.py lines
161-168): same user, same stored hash, not revoked, expires_at in the
future.  The device id is not part of the filter. -/
def validPred (uid : Int) (h : Hash) (t : Nat) (s : AuthSession) : Bool :=
  decide (s.user_id = uid ∧ s.refresh_token_hash = h ∧
          s.revoked = false ∧ t < s.expires_at)

/-- AuthService.validate_refresh_token: verify the presented token with
expected type refresh, require a truthy user_id claim, then query the
first session satisfying validPred.  When found, last_used_at is stamped
and committed. -/
def validate_refresh_token (cfg : Config) (db : DB) (t : Nat) (tok : Token) :
    Option AuthSession × DB :=
  match verify_token cfg.secret t tok "refresh" with
  | none => (none, db)
  | some p =>
    match truthyId p.user_id with
    | none => (none, db)
    | some uid =>
      match db.sessions.find? (validPred uid (hash_refresh_token tok) t) with
      | none => (none, db)
      | some s =>
        let s1 := { s with last_used_at := some t }
        (some s1,
         { db with sessions :=
             (updateById s.id (fun r => { r with last_used_at := some t })
               db.sessions) })

/-- The HTTP-visible outcomes of the refresh endpoint: 200 with a new token
pair, 401, 403 (reuse detected) or 500 (unhandled exception, for example an
IntegrityError from the commit). -/
inductive RefreshResult where
  | success (access refresh : Token)
  | unauthorized
  | reuseDetected
  | serverError
deriving DecidableEq

/-- Outcome of the read phase of the refresh handler: either the request
halts with a result (and a possibly mutated store, for the reuse-detection
branch), or it proceeds to the rotation write with the session row it read
and the authenticated user id. -/
inductive RefreshRead where
  | halt (r : RefreshResult) (db : DB)
  | rotate (s : AuthSession) (uid : Int)
deriving DecidableEq

/-- The session query of the refresh router (routers.py lines 277-284):
first session matching user id, device id and token hash whose expires_at
is in the future.  The revoked flag is not part of the filter. -/
def refresh_lookup (db : DB) (uid : Int) (dev : String) (h : Hash)
    (t : Nat) : Option AuthSession :=
  db.sessions.find? (fun s =>
    decide (s.user_id = uid ∧ s.device_id = dev ∧
            s.refresh_token_hash = h ∧ t < s.expires_at))

/-- The read phase of the refresh router (routers.py lines 242-312): cookie
presence, JWT verification with expected type refresh, truthy user_id
claim, session query, reuse detection on the revoked flag (revoking every
session of the user), and the user lookup. -/
def refresh_read (cfg : Config) (db : DB) (t : Nat) (tok? : Option Token)
    (dev? : Option String) : RefreshRead :=
  match tok?, dev? with
  | some tok, some dev =>
    if dev = "" then .halt .unauthorized db
    else
      match verify_token cfg.secret t tok "refresh" with
      | none => .halt .unauthorized db
      | some p =>
        match truthyId p.user_id with
        | none => .halt .unauthorized db
        | some uid =>
          match refresh_lookup db uid dev (hash_refresh_token tok) t with
          | none => .halt .unauthorized db
          | some s =>
            if s.revoked then
              .halt .reuseDetected
                { db with sessions := revokeAllFor uid t db.sessions }
            else if db.users.any (fun u => decide (u.id = uid)) then
              .rotate s uid
            else .halt .unauthorized db
  | _, _ => .halt .unauthorized db

/-- The write phase of the refresh router (routers.py lines 314-322):
generate a fresh token pair, then UPDATE the session row by primary key
with the new hash, last_used_at and slid expires_at — unconditionally, with
no re-check of the stored hash or the revoked flag.  The commit enforces
the unique refresh_token_hash column: a collision with another row raises
IntegrityError, embedded as serverError with the transaction rolled
back. -/
def refresh_write (cfg : Config) (db : DB) (t : Nat) (sid : Nat)
    (uid : Int) : RefreshResult × DB :=
  if db.sessions.any (fun r =>
      decide (¬ r.id = sid ∧ r.refresh_token_hash =
        hash_refresh_token (generate_tokens cfg uid t).2)) then
    (.serverError, db)
  else
    (.success (generate_tokens cfg uid t).1 (generate_tokens cfg uid t).2,
     { db with sessions :=
         (updateById sid
           (rotateUpd (hash_refresh_token (generate_tokens cfg uid t).2) t
             cfg.refreshDays)
           db.sessions) })

/-- The refresh endpoint as executed for a single request with no
interleaving: read phase followed immediately by write phase. -/
def refresh_handler (cfg : Config) (db : DB) (t : Nat) (tok? : Option Token)
    (dev? : Option String) : RefreshResult × DB :=
  match refresh_read cfg db t tok? dev? with
  | .halt r db1 => (r, db1)
  | .rotate s uid => refresh_write cfg db t s.id uid

/-- The HTTP-visible outcomes of the logout endpoint: 204, 401 or 500. -/
inductive LogoutResult where
  | success
  | unauthorized
  | serverError
deriving DecidableEq

/-- The logout router (routers.py lines 369-410): cookie presence,
validate_refresh_token (which ignores the device id), then
AuthService.revoke_session on the returned session: revoked and revoked_at
are set and committed. -/
def logout_handler (cfg : Config) (db : DB) (t : Nat) (tok? : Option Token)
    (dev? : Option String) : LogoutResult × DB :=
  match tok?, dev? with
  | some tok, some dev =>
    if dev = "" then (.unauthorized, db)
    else
      match validate_refresh_token cfg db t tok with
      | (none, db1) => (.unauthorized, db1)
      | (some s, db1) =>
        (.success,
         { db1 with sessions :=
             (updateById s.id
               (fun r => { r with revoked := true, revoked_at := some t })
               db1.sessions) })
  | _, _ => (.unauthorized, db)

/-- The HTTP-visible outcomes of the register and login endpoints. -/
inductive AuthResult where
  | ok
  | badRequest
  | unauthorized
  | serverError
deriving DecidableEq

/-- The register router (routers.py lines 31-114): create the user (400 on
duplicate email), mint a fresh device id (passed in here, since uuid4 is
environmental randomness), generate a token pair and create the session.
create_user commits on its own, so a session-creation failure leaves the
user row in place and surfaces as 500. -/
def register_handler (cfg : Config) (db : DB) (t : Nat)
    (name email password deviceId : String) : AuthResult × DB :=
  match create_user db name email password with
  | none => (.badRequest, db)
  | some (db1, uid) =>
    match create_auth_session cfg db1 t uid
        (generate_tokens cfg uid t).2 deviceId with
    | none => (.serverError, db1)
    | some (db2, _) => (.ok, db2)

/-- The login router (routers.py lines 127-211): authenticate (401 on
failure), mint a fresh device id, generate a token pair and create the
session. -/
def login_handler (cfg : Config) (db : DB) (t : Nat)
    (email password deviceId : String) : AuthResult × DB :=
  match authenticate_user db email password with
  | none => (.unauthorized, db)
  | some uid =>
    match create_auth_session cfg db t uid
        (generate_tokens cfg uid t).2 deviceId with
    | none => (.serverError, db)
    | some (db2, _) => (.ok, db2)

/-- One inbound request of the lifecycle subsystem.  Device ids minted by
uuid4 and the clock reading of the request are carried as parameters, so
the machine ranges over every possible randomness and timing outcome,
including colliding device ids and repeated clock values. -/
inductive Op where
  | register (name email password deviceId : String) (t : Nat)
  | login (email password deviceId : String) (t : Nat)
  | refresh (tok : Option Token) (dev : Option String) (t : Nat)
  | logout (tok : Option Token) (dev : Option String) (t : Nat)

/-- The store transition of one request (each handler runs atomically). -/
def stepOp (cfg : Config) (db : DB) : Op → DB
  | .register n e p d t => (register_handler cfg db t n e p d).2
  | .login e p d t => (login_handler cfg db t e p d).2
  | .refresh tok dev t => (refresh_handler cfg db t tok dev).2
  | .logout tok dev t => (logout_handler cfg db t tok dev).2

/-- Run a finite sequence of requests against a store. -/
def applyOps (cfg : Config) (db : DB) : List Op → DB
  | [] => db
  | op :: rest => applyOps cfg (stepOp cfg db op) rest

/-- Decision of the request gate: forward (with the subject id attached to
request state when one was verified) or reject with 401. -/
inductive GateResult where
  | forwarded (subject : Option Int)
  | denied401
deriving DecidableEq

/-- Constructor arguments of AuthMiddleware: the public path allow-list. -/
structure MwConfig where
  public_paths : List String
  public_prefixes : List String
deriving DecidableEq

/-- AuthMiddleware._is_public_path: exact match against public_paths, or
any prefix of public_prefixes matches the path. -/
def is_public_path (cfg : MwConfig) (path : String) : Bool :=
  cfg.public_paths.contains path ||
    cfg.public_prefixes.any (fun p => p.isPrefixOf path)

/-- An inbound request as seen by the middleware: method, path and the
auth_token cookie. -/
structure GateRequest where
  method : String
  path : String
  authCookie : Option Token
deriving DecidableEq

/-- The subject extracted by the gate from a presented token: verify with
expected type access, then require a truthy user_id claim. -/
def gate_subject (secret : Nat) (t : Nat) (tok : Token) : Option Int :=
  match verify_token secret t tok "access" with
  | none => none
  | some p => truthyId p.user_id

/-- AuthMiddleware.dispatch: pre-flight OPTIONS requests and public paths
are forwarded untouched; otherwise the access-token cookie is required and
verified, and on success the subject id is attached to request state.  The
function is total and takes no store: the gate never raises and never
mutates session state. -/
def dispatch (mw : MwConfig) (secret : Nat) (t : Nat) (req : GateRequest) :
    GateResult :=
  if req.method = "OPTIONS" then .forwarded none
  else if is_public_path mw req.path then .forwarded none
  else
    match req.authCookie with
    | none => .denied401
    | some tok =>
      match gate_subject secret t tok with
      | none => .denied401
      | some uid => .forwarded (some uid)

/-- Concrete settings used by the evaluation theorems: secret 0, the
default 15-minute access and 30-day refresh lifetimes. -/
def cfg0 : Config := ⟨0, 15, 30⟩

theorem nowSec_mono {a b : Nat} (h : a ≤ b) : nowSec a ≤ nowSec b :=
  Nat.div_le_div_right h

/-- Claim C5: a token issued for a subject with a given type tag and ttl
verifies, before its expiry and under the matching expected type, to
exactly that subject id; the other expected type, a verification time at
or past expiry, a signature not produced with the process secret over the
payload, and malformed input all yield the typed failure value none; and
verify_token is a total function, so it never throws. -/
theorem C5_issue_verify_roundtrip (cfg : Config) (uid : Int) (t tv : Nat) :
    ((nowSec tv < nowSec t + cfg.accessMin * 60 →
      (verify_token cfg.secret tv (generate_tokens cfg uid t).1
        "access").bind JwtPayload.user_id = some uid) ∧
     verify_token cfg.secret tv (generate_tokens cfg uid t).1 "refresh" =
       none ∧
     (nowSec t + cfg.accessMin * 60 ≤ nowSec tv →
      verify_token cfg.secret tv (generate_tokens cfg uid t).1 "access" =
        none)) ∧
    ((nowSec tv < nowSec t + cfg.refreshDays * 86400 →
      (verify_token cfg.secret tv (generate_tokens cfg uid t).2
        "refresh").bind JwtPayload.user_id = some uid) ∧
     verify_token cfg.secret tv (generate_tokens cfg uid t).2 "access" =
       none ∧
     (nowSec t + cfg.refreshDays * 86400 ≤ nowSec tv →
      verify_token cfg.secret tv (generate_tokens cfg uid t).2 "refresh" =
        none)) ∧
    (∀ p sg ty, sg ≠ sign cfg.secret p →
      verify_token cfg.secret tv (Token.jwt p sg) ty = none) ∧
    (∀ s ty, verify_token cfg.secret tv (Token.malformed s) ty = none) := by
  refine ⟨⟨?_, ?_, ?_⟩, ⟨?_, ?_, ?_⟩, ?_, ?_⟩
  · intro h
    simp [generate_tokens, generate_tokens_at, verify_token, jwt_decode,
          Nat.not_le.mpr h]
  · by_cases h : nowSec t + cfg.accessMin * 60 ≤ nowSec tv
    · simp [generate_tokens, generate_tokens_at, verify_token, jwt_decode, h]
    · simp [generate_tokens, generate_tokens_at, verify_token, jwt_decode, h]
  · intro h
    simp [generate_tokens, generate_tokens_at, verify_token, jwt_decode, h]
  · intro h
    simp [generate_tokens, generate_tokens_at, verify_token, jwt_decode,
          Nat.not_le.mpr h]
  · by_cases h : nowSec t + cfg.refreshDays * 86400 ≤ nowSec tv
    · simp [generate_tokens, generate_tokens_at, verify_token, jwt_decode, h]
    · simp [generate_tokens, generate_tokens_at, verify_token, jwt_decode, h]
  · intro h
    simp [generate_tokens, generate_tokens_at, verify_token, jwt_decode, h]
  · intro p sg ty h
    simp [verify_token, jwt_decode, h]
  · intro s ty
    simp [verify_token, jwt_decode]

/-- Witness for C5 at concrete inputs: subject 7, issued at clock 0,
verified at clock 1000000 (one second). -/
theorem C5_witness :
    ((verify_token cfg0.secret 1000000 (generate_tokens cfg0 7 0).1
       "access").bind JwtPayload.user_id = some 7) ∧
    verify_token cfg0.secret 1000000 (generate_tokens cfg0 7 0).1
      "refresh" = none := by
  refine ⟨(C5_issue_verify_roundtrip cfg0 7 0 1000000).1.1 (by decide),
          (C5_issue_verify_roundtrip cfg0 7 0 1000000).1.2.1⟩

/-- Claim C9: the request gate is a total allow/deny function over request
data alone (no store argument, so it cannot mutate session state, and it is
total, so it never raises).  Pre-flight OPTIONS requests and public paths
are forwarded unchanged; otherwise the request is denied with 401 exactly
when the access-token cookie is absent, when verification with expected
type access fails, or when the verified payload lacks a truthy subject id;
and on success the verified subject id is attached and the request
forwarded. -/
theorem C9_dispatch_gate (mw : MwConfig) (secret t : Nat)
    (req : GateRequest) :
    (req.method = "OPTIONS" → dispatch mw secret t req = .forwarded none) ∧
    (req.method ≠ "OPTIONS" → is_public_path mw req.path = true →
      dispatch mw secret t req = .forwarded none) ∧
    (req.method ≠ "OPTIONS" → is_public_path mw req.path = false →
      req.authCookie = none → dispatch mw secret t req = .denied401) ∧
    (∀ tok, req.method ≠ "OPTIONS" → is_public_path mw req.path = false →
      req.authCookie = some tok → gate_subject secret t tok = none →
      dispatch mw secret t req = .denied401) ∧
    (∀ tok uid, req.method ≠ "OPTIONS" →
      is_public_path mw req.path = false → req.authCookie = some tok →
      gate_subject secret t tok = some uid →
      dispatch mw secret t req = .forwarded (some uid)) := by
  refine ⟨?_, ?_, ?_, ?_, ?_⟩
  · intro h
    simp [dispatch, h]
  · intro h hp
    simp [dispatch, h, hp]
  · intro h hp hc
    simp [dispatch, h, hp, hc]
  · intro tok h hp hc hs
    simp [dispatch, h, hp, hc, hs]
  · intro tok uid h hp hc hs
    simp [dispatch, h, hp, hc, hs]

/-- Witness for C9 at concrete inputs: an OPTIONS pre-flight is forwarded,
a cookieless GET on a gated path is denied, and a GET carrying a token
freshly issued at clock 0 and checked one second later is forwarded with
subject 7 attached. -/
theorem C9_witness :
    dispatch ⟨["/auth/login"], []⟩ 0 1000000
      ⟨"OPTIONS", "/user/details", none⟩ = .forwarded none ∧
    dispatch ⟨["/auth/login"], []⟩ 0 1000000
      ⟨"GET", "/user/details", none⟩ = .denied401 ∧
    dispatch ⟨["/auth/login"], []⟩ 0 1000000
      ⟨"GET", "/user/details", some (generate_tokens cfg0 7 0).1⟩ =
      .forwarded (some 7) := by
  refine ⟨(C9_dispatch_gate _ 0 1000000 _).1 rfl,
          (C9_dispatch_gate _ 0 1000000 _).2.2.1 (by decide) (by decide)
            rfl,
          (C9_dispatch_gate _ 0 1000000 _).2.2.2.2 _ 7 (by decide)
            (by decide) rfl (by decide)⟩

/-- Claim C10: generate_tokens is deterministic in the subject and the
clock; it draws no randomness, and every timestamp it embeds is floored to
whole seconds, so two invocations whose four datetime readings fall in the
same respective seconds produce identical token pairs, and hence identical
stored refresh hashes. -/
theorem C10_generate_tokens_deterministic (cfg : Config) (uid : Int)
    (t1 t2 t3 t4 u1 u2 u3 u4 : Nat)
    (h1 : nowSec t1 = nowSec u1) (h2 : nowSec t2 = nowSec u2)
    (h3 : nowSec t3 = nowSec u3) (h4 : nowSec t4 = nowSec u4) :
    generate_tokens_at cfg uid t1 t2 t3 t4 =
      generate_tokens_at cfg uid u1 u2 u3 u4 ∧
    hash_refresh_token (generate_tokens_at cfg uid t1 t2 t3 t4).2 =
      hash_refresh_token (generate_tokens_at cfg uid u1 u2 u3 u4).2 := by
  have he : generate_tokens_at cfg uid t1 t2 t3 t4 =
      generate_tokens_at cfg uid u1 u2 u3 u4 := by
    simp [generate_tokens_at, h1, h2, h3, h4]
  exact ⟨he, by rw [he]⟩

/-- Witness for C10 at concrete inputs: four readings spread across the
microseconds of the same respective seconds yield identical pairs. -/
theorem C10_witness :
    generate_tokens_at cfg0 7 5000000 5000000 5000000 5000000 =
      generate_tokens_at cfg0 7 5999999 5000001 5500000 5000002 ∧
    hash_refresh_token
        (generate_tokens_at cfg0 7 5000000 5000000 5000000 5000000).2 =
      hash_refresh_token
        (generate_tokens_at cfg0 7 5999999 5000001 5500000 5000002).2 :=
  C10_generate_tokens_deterministic cfg0 7 _ _ _ _ _ _ _ _
    (by decide) (by decide) (by decide) (by decide)

/-- Fixture: one registered user. -/
def userA : UserRec := ⟨1, "n", "a@x.com", "pw"⟩

/-- Fixture: the refresh token issued to user 1 at clock 0. -/
def refTok0 : Token := (generate_tokens cfg0 1 0).2

/-- Fixture: a second refresh token (issued one second later, so its digest
differs). -/
def refTokE : Token := (generate_tokens cfg0 1 1000000).2

/-- Fixture: the active session of user 1 on device d, storing the digest
of refTok0. -/
def sess0 : AuthSession :=
  { id := 1, user_id := 1, device_id := "d",
    refresh_token_hash := hash_refresh_token refTok0, revoked := false,
    expires_at := 30 * usPerDay, created_at := 0, last_used_at := none,
    revoked_at := none }

/-- Fixture: an active session of user 1 on a second device e. -/
def sessE : AuthSession :=
  { id := 2, user_id := 1, device_id := "e",
    refresh_token_hash := hash_refresh_token refTokE, revoked := false,
    expires_at := 30 * usPerDay, created_at := 0, last_used_at := none,
    revoked_at := none }

/-- Fixture: store with the single session sess0. -/
def dbOne : DB :=
  { users := [userA], sessions := [sess0], nextUserId := 2,
    nextSessionId := 2 }

/-- Fixture: dbOne after a successful refresh with refTok0 at clock
1000000; the stored hash of session 1 is now the digest of the rotated
token. -/
def dbRot : DB :=
  (refresh_handler cfg0 dbOne 1000000 (some refTok0) (some "d")).2

/-- Fixture: store where session 1 is revoked (hash intact) and session 2
is active on device e. -/
def dbRev : DB :=
  { users := [userA],
    sessions := [{ sess0 with revoked := true }, sessE],
    nextUserId := 2, nextSessionId := 3 }

/-- Fixture: store where session 1 is revoked and already past its
expires_at, and session 2 is active on device e. -/
def dbRevExp : DB :=
  { users := [userA],
    sessions := [{ sess0 with revoked := true, expires_at := 500000 },
                 sessE],
    nextUserId := 2, nextSessionId := 3 }

/-- Fixture: store with the two active sessions sess0 (device d) and sessE
(device e). -/
def dbTwo : DB :=
  { users := [userA], sessions := [sess0, sessE], nextUserId := 2,
    nextSessionId := 3 }

/-- Counterexample to claim C2 as stated: after session 1 is rotated once
(first conjunct: the rotation succeeded), replaying the consumed
predecessor token refTok0 yields a plain 401 Unauthorized and leaves the
store untouched — rotation replaced the stored hash in place, so the old
digest matches no session, no mass revocation happens, and ReuseDetected
is never raised. -/
theorem C2_counterexample_replay_after_rotation :
    (refresh_handler cfg0 dbOne 1000000 (some refTok0) (some "d")).1 =
      RefreshResult.success (generate_tokens cfg0 1 1000000).1
        (generate_tokens cfg0 1 1000000).2 ∧
    (refresh_handler cfg0 dbRot 2000000 (some refTok0) (some "d")).1 =
      RefreshResult.unauthorized ∧
    (refresh_handler cfg0 dbRot 2000000 (some refTok0) (some "d")).2 =
      dbRot := by
  refine ⟨by decide, by decide, by decide⟩

/-- Counterexample to claim C3 as stated: session 1 is revoked with a
matching hash but its expires_at is in the past.  The claim requires mass
revocation and ReuseDetected; the code filters expires_at > now inside the
lookup, so the request fails with a plain 401 Unauthorized and the store —
including the still-active session on device e — is untouched. -/
theorem C3_counterexample_expired_revoked_session :
    (refresh_handler cfg0 dbRevExp 1000000 (some refTok0) (some "d")).1 =
      RefreshResult.unauthorized ∧
    (refresh_handler cfg0 dbRevExp 1000000 (some refTok0) (some "d")).2 =
      dbRevExp := by
  refine ⟨by decide, by decide⟩

/-- Counterexample to claim C8 as stated: presenting the refresh token of
session 1 (device d) together with the device id of session 2 (device e)
still succeeds and revokes session 1 — the device id is never compared —
and a second logout with the same token afterwards fails with 401 rather
than succeeding idempotently. -/
theorem C8_counterexample_logout :
    (logout_handler cfg0 dbTwo 1000000 (some refTok0) (some "e")).1 =
      LogoutResult.success ∧
    ((logout_handler cfg0 dbTwo 1000000 (some refTok0)
        (some "e")).2.sessions.find? (fun r => r.id == 1)).map
      (fun r => r.revoked) = some true ∧
    (logout_handler cfg0
        (logout_handler cfg0 dbTwo 1000000 (some refTok0) (some "e")).2
        2000000 (some refTok0) (some "d")).1 =
      LogoutResult.unauthorized := by
  refine ⟨by decide, by decide, by decide⟩

/-- Claim C1, evaluated at the failing interleaving: two refresh requests
present the same valid token.  Both pass the read phase against the
initial store (conjuncts 1 and 2); the first write phase commits a
rotation (conjunct 3), after which the stored hash of session 1 is the
digest of the first rotated token, which differs from the digest of the
presented token (conjuncts 4 and 5).  The write phase of the second
request then runs against that rotated store: the claim requires a
conflict there with the record left unchanged, but the unconditional UPDATE of
routers.py lines 319-322 reports success and overwrites the hash again
(conjuncts 6 and 7). -/
theorem C1_unconditional_rotation_write :
    refresh_read cfg0 dbOne 1000000 (some refTok0) (some "d") =
      RefreshRead.rotate sess0 1 ∧
    refresh_read cfg0 dbOne 2000000 (some refTok0) (some "d") =
      RefreshRead.rotate sess0 1 ∧
    (refresh_write cfg0 dbOne 1000000 1 1).1 =
      RefreshResult.success (generate_tokens cfg0 1 1000000).1
        (generate_tokens cfg0 1 1000000).2 ∧
    ((refresh_write cfg0 dbOne 1000000 1 1).2.sessions.find?
        (fun r => r.id == 1)).map (fun r => r.refresh_token_hash) =
      some (hash_refresh_token (generate_tokens cfg0 1 1000000).2) ∧
    hash_refresh_token (generate_tokens cfg0 1 1000000).2 ≠
      hash_refresh_token refTok0 ∧
    (refresh_write cfg0 (refresh_write cfg0 dbOne 1000000 1 1).2 2000000
        1 1).1 =
      RefreshResult.success (generate_tokens cfg0 1 2000000).1
        (generate_tokens cfg0 1 2000000).2 ∧
    ((refresh_write cfg0 (refresh_write cfg0 dbOne 1000000 1 1).2 2000000
        1 1).2.sessions.find? (fun r => r.id == 1)).map
      (fun r => r.refresh_token_hash) =
      some (hash_refresh_token (generate_tokens cfg0 1 2000000).2) := by
  refine ⟨by decide, by decide, by decide, by decide, by decide,
          by decide, by decide⟩

/-- Claim C2 as amended: reuse detection fires exactly when the presented
digest of the refresh token still matches a stored, non-expired session whose
revoked flag is set (for example a session revoked by logout): in that case
every session of the user is revoked and the request fails with
ReuseDetected.  (A token consumed by rotation no longer matches any
session, because rotation replaces the stored hash in place, and replaying
it yields a plain Unauthorized, as the counterexample shows.) -/
theorem C2_reuse_detection_amended (cfg : Config) (db : DB) (t : Nat)
    (tok : Token) (dev : String) (p : JwtPayload) (uid : Int)
    (s : AuthSession) (hdev : dev ≠ "")
    (hv : verify_token cfg.secret t tok "refresh" = some p)
    (hu : truthyId p.user_id = some uid)
    (hl : refresh_lookup db uid dev (hash_refresh_token tok) t = some s)
    (hr : s.revoked = true) :
    refresh_handler cfg db t (some tok) (some dev) =
      (RefreshResult.reuseDetected,
       { db with sessions := revokeAllFor uid t db.sessions }) := by
  simp [refresh_handler, refresh_read, hdev, hv, hu, hl, hr]

/-- Witness for the amended C2: in dbRev the token of the revoked session 1
is replayed; every session of user 1 — including the active one on device
e — is revoked and the request fails with ReuseDetected. -/
theorem C2_amended_witness :
    refresh_handler cfg0 dbRev 1000000 (some refTok0) (some "d") =
      (RefreshResult.reuseDetected,
       { dbRev with sessions := revokeAllFor 1 1000000 dbRev.sessions }) :=
  C2_reuse_detection_amended cfg0 dbRev 1000000 refTok0 "d"
    ⟨some 1, 2592000, 0, "refresh"⟩ 1 { sess0 with revoked := true }
    (by decide) (by decide) (by decide) (by decide) (by decide)

/-- Claim C3 as amended: the refresh lookup ignores the revoked flag but
filters on expires_at > now, so reuse detection can fire only for a
non-expired matching session; when every session matching (user id, device
id, token digest) is at or past its expires_at, the request fails with a
plain Unauthorized and the store is left unchanged — no mass revocation —
even if such a matching session is revoked. -/
theorem C3_expiry_over_revoked_amended (cfg : Config) (db : DB) (t : Nat)
    (tok : Token) (dev : String) (p : JwtPayload) (uid : Int)
    (hdev : dev ≠ "")
    (hv : verify_token cfg.secret t tok "refresh" = some p)
    (hu : truthyId p.user_id = some uid)
    (hexp : ∀ s ∈ db.sessions, s.user_id = uid → s.device_id = dev →
      s.refresh_token_hash = hash_refresh_token tok → s.expires_at ≤ t) :
    refresh_handler cfg db t (some tok) (some dev) =
      (RefreshResult.unauthorized, db) := by
  have hnone : refresh_lookup db uid dev (hash_refresh_token tok) t =
      none := by
    rw [refresh_lookup, List.find?_eq_none]
    intro s hs
    simp only [decide_eq_true_eq, not_and]
    intro h1 h2 h3
    exact Nat.not_lt.mpr (hexp s hs h1 h2 h3)
  simp [refresh_handler, refresh_read, hdev, hv, hu, hnone]

/-- Witness for the amended C3: in dbRevExp the matching session is revoked
but expired; the request yields Unauthorized and the store is unchanged. -/
theorem C3_amended_witness :
    refresh_handler cfg0 dbRevExp 1000000 (some refTok0) (some "d") =
      (RefreshResult.unauthorized, dbRevExp) :=
  C3_expiry_over_revoked_amended cfg0 dbRevExp 1000000 refTok0 "d"
    ⟨some 1, 2592000, 0, "refresh"⟩ 1
    (by decide) (by decide) (by decide) (by decide)

/-- The store mutation of a successful logout: validate_refresh_token
stamps last_used_at on the found row and revoke_session then sets revoked
and revoked_at on the same row. -/
def logoutMark (sid : Nat) (t : Nat) (l : List AuthSession) :
    List AuthSession :=
  updateById sid
    (fun r => { r with revoked := true, revoked_at := some t })
    (updateById sid (fun r => { r with last_used_at := some t }) l)

/-- Claim C8 as amended: logout revokes the session whose stored hash
matches the presented refresh token for the user of that token, regardless
of the presented device id — the device cookie need only be present and
non-empty, it is never compared against the session — and logout is not
idempotent: once the session is revoked, a second logout with the same
refresh token fails with 401 Unauthorized instead of succeeding. -/
theorem C8_logout_amended (cfg : Config) (db : DB) (t t2 : Nat)
    (tok : Token) (dev dev2 : String) (p : JwtPayload) (uid : Int)
    (s : AuthSession) (hdev : dev ≠ "") (hdev2 : dev2 ≠ "")
    (hv : verify_token cfg.secret t tok "refresh" = some p)
    (hu : truthyId p.user_id = some uid)
    (hl : db.sessions.find? (validPred uid (hash_refresh_token tok) t) =
      some s)
    (huniq : ∀ r ∈ db.sessions,
      r.refresh_token_hash = hash_refresh_token tok → r = s) :
    logout_handler cfg db t (some tok) (some dev) =
      (LogoutResult.success,
       { db with sessions := logoutMark s.id t db.sessions }) ∧
    (logout_handler cfg
        { db with sessions := logoutMark s.id t db.sessions } t2
        (some tok) (some dev2)).1 = LogoutResult.unauthorized := by
  have hfind : ∀ (uid2 : Int) (t3 : Nat),
      (logoutMark s.id t db.sessions).find?
        (validPred uid2 (hash_refresh_token tok) t3) = none := by
    intro uid2 t3
    rw [List.find?_eq_none]
    intro x hx
    simp only [logoutMark, updateById, List.map_map, List.mem_map] at hx
    obtain ⟨r, hr, hxr⟩ := hx
    simp only [validPred, decide_eq_true_eq, not_and]
    intro _ hhash hrev
    intro _
    by_cases hid : r.id = s.id
    · rw [Function.comp_apply] at hxr
      simp only [hid, if_pos rfl] at hxr
      rw [← hxr] at hrev
      simp at hrev
    · rw [Function.comp_apply] at hxr
      simp only [if_neg hid] at hxr
      rw [← hxr] at hhash
      exact hid (congrArg AuthSession.id (huniq r hr hhash))
  constructor
  · simp [logout_handler, validate_refresh_token, hdev, hv, hu, hl,
          logoutMark]
  · rcases hv2 : verify_token cfg.secret t2 tok "refresh" with _ | q
    · simp [logout_handler, validate_refresh_token, hdev2, hv2]
    · rcases hq : truthyId q.user_id with _ | u2
      · simp [logout_handler, validate_refresh_token, hdev2, hv2, hq]
      · simp [logout_handler, validate_refresh_token, hdev2, hv2, hq,
              hfind u2 t2]

/-- Witness for the amended C8: in dbTwo, logging out with the token of
session 1 and the device id of session 2 succeeds and revokes session 1, and
a second logout with that token fails with 401. -/
theorem C8_amended_witness :
    logout_handler cfg0 dbTwo 1000000 (some refTok0) (some "e") =
      (LogoutResult.success,
       { dbTwo with sessions := logoutMark 1 1000000 dbTwo.sessions }) ∧
    (logout_handler cfg0
        { dbTwo with sessions := logoutMark 1 1000000 dbTwo.sessions }
        2000000 (some refTok0) (some "d")).1 =
      LogoutResult.unauthorized :=
  C8_logout_amended cfg0 dbTwo 1000000 2000000 refTok0 "e" "d"
    ⟨some 1, 2592000, 0, "refresh"⟩ 1 sess0
    (by decide) (by decide) (by decide) (by decide) (by decide)
    (by decide)

/-- A non-revoked session of the (user, device) pair. -/
def sessionPair (u : Int) (d : String) (s : AuthSession) : Bool :=
  decide (s.user_id = u ∧ s.device_id = d ∧ s.revoked = false)

/-- Number of non-revoked sessions of the (user, device) pair. -/
def pairCount (u : Int) (d : String) (l : List AuthSession) : Nat :=
  l.countP (sessionPair u d)

/-- Reachable-store invariant: primary keys are pairwise distinct and below
the autoincrement counter, stored refresh hashes are pairwise distinct, and
every (user, device) pair has at most one non-revoked session. -/
def StoreInv (db : DB) : Prop :=
  (db.sessions.map AuthSession.id).Nodup ∧
  (∀ i ∈ db.sessions.map AuthSession.id, i < db.nextSessionId) ∧
  (db.sessions.map AuthSession.refresh_token_hash).Nodup ∧
  ∀ u d, pairCount u d db.sessions ≤ 1

theorem inv_emptyDB : StoreInv emptyDB := by
  refine ⟨List.nodup_nil, ?_, List.nodup_nil, ?_⟩
  · intro i hi
    simp [emptyDB] at hi
  · intro u d
    simp [pairCount, emptyDB]

theorem map_pres_field {β : Type} (g : AuthSession → AuthSession)
    (fld : AuthSession → β) (l : List AuthSession)
    (hg : ∀ r, fld (g r) = fld r) :
    (l.map g).map fld = l.map fld := by
  rw [List.map_map]
  exact List.map_congr_left fun a _ => hg a

theorem map_countP_le (g : AuthSession → AuthSession)
    (p : AuthSession → Bool) (l : List AuthSession)
    (hg : ∀ r, p (g r) = true → p r = true) :
    (l.map g).countP p ≤ l.countP p := by
  rw [List.countP_map]
  exact List.countP_mono_left fun a _ => hg a

theorem map_countP_eq (g : AuthSession → AuthSession)
    (p : AuthSession → Bool) (l : List AuthSession)
    (hg : ∀ r, p (g r) = p r) :
    (l.map g).countP p = l.countP p := by
  rw [List.countP_map]
  exact List.countP_congr fun a _ => by rw [Function.comp_apply, hg]

theorem frozen_map (g : AuthSession → AuthSession) (l : List AuthSession)
    (s : AuthSession) (hs : s ∈ l) (hg : g s = s) : s ∈ l.map g := by
  rw [List.mem_map]
  exact ⟨s, hs, hg⟩

/-- Rebuilding a store with a session list that has the same primary keys,
the same hashes and no larger pair counts preserves the invariant. -/
theorem inv_sessions_update (db : DB) (l2 : List AuthSession)
    (hids : l2.map AuthSession.id = db.sessions.map AuthSession.id)
    (hh : l2.map AuthSession.refresh_token_hash =
      db.sessions.map AuthSession.refresh_token_hash)
    (hp : ∀ u d, pairCount u d l2 ≤ pairCount u d db.sessions)
    (hinv : StoreInv db) : StoreInv { db with sessions := l2 } := by
  obtain ⟨h1, h2, h3, h4⟩ := hinv
  refine ⟨?_, ?_, ?_, ?_⟩
  · simpa [hids] using h1
  · intro i hi
    rw [show ({ db with sessions := l2 } : DB).sessions = l2 from rfl,
        hids] at hi
    exact h2 i hi
  · simpa [hh] using h3
  · intro u d
    exact le_trans (hp u d) (h4 u d)

theorem revokeFirst_map_id (u : Int) (d : String) (t : Nat)
    (l : List AuthSession) :
    (revokeFirst u d t l).map AuthSession.id = l.map AuthSession.id := by
  induction l with
  | nil => rfl
  | cons a l ih =>
    by_cases h : a.user_id = u ∧ a.device_id = d ∧ a.revoked = false
    · simp [revokeFirst, h]
    · simp [revokeFirst, h, ih]

theorem revokeFirst_map_hash (u : Int) (d : String) (t : Nat)
    (l : List AuthSession) :
    (revokeFirst u d t l).map AuthSession.refresh_token_hash =
      l.map AuthSession.refresh_token_hash := by
  induction l with
  | nil => rfl
  | cons a l ih =>
    by_cases h : a.user_id = u ∧ a.device_id = d ∧ a.revoked = false
    · simp [revokeFirst, h]
    · simp [revokeFirst, h, ih]

theorem revokeFirst_pairCount_le (u d2 : Int) (dv dv2 : String) (t : Nat)
    (l : List AuthSession) :
    pairCount d2 dv2 (revokeFirst u dv t l) ≤ pairCount d2 dv2 l := by
  unfold pairCount
  induction l with
  | nil => exact Nat.le_refl _
  | cons a l ih =>
    by_cases h : a.user_id = u ∧ a.device_id = dv ∧ a.revoked = false
    · rw [revokeFirst, if_pos h, List.countP_cons, List.countP_cons]
      have hf : sessionPair d2 dv2
          { a with revoked := true, revoked_at := some t } = false := by
        simp [sessionPair]
      rw [hf]
      have h0 : (if (false : Bool) then 1 else 0) = 0 := rfl
      rw [h0, Nat.add_zero]
      exact Nat.le_add_right _ _
    · rw [revokeFirst, if_neg h, List.countP_cons, List.countP_cons]
      exact Nat.add_le_add_right ih _

theorem revokeFirst_frozen (u : Int) (d : String) (t : Nat)
    (l : List AuthSession) (s : AuthSession) (hs : s ∈ l)
    (hr : s.revoked = true) : s ∈ revokeFirst u d t l := by
  induction l with
  | nil => cases hs
  | cons a l ih =>
    rcases List.mem_cons.mp hs with rfl | hmem
    · by_cases h : s.user_id = u ∧ s.device_id = d ∧ s.revoked = false
      · rw [h.2.2] at hr; cases hr
      · simp [revokeFirst, h]
    · by_cases h : a.user_id = u ∧ a.device_id = d ∧ a.revoked = false
      · simp [revokeFirst, h, List.mem_cons, hmem]
      · simp [revokeFirst, h, List.mem_cons, ih hmem]

theorem frozen_updateById (sid : Nat) (f : AuthSession → AuthSession)
    (l : List AuthSession) (s : AuthSession) (hs : s ∈ l)
    (hne : ¬ s.id = sid) : s ∈ updateById sid f l := by
  rw [updateById, List.mem_map]
  exact ⟨s, hs, by rw [if_neg hne]⟩

theorem updateById_of_no_match (sid : Nat) (f : AuthSession → AuthSession)
    (l : List AuthSession) (hl : ∀ r ∈ l, ¬ r.id = sid) :
    updateById sid f l = l := by
  rw [updateById]
  have : ∀ r ∈ l, (if r.id = sid then f r else r) = r := by
    intro r hr
    rw [if_neg (hl r hr)]
  calc l.map (fun r => if r.id = sid then f r else r) = l.map id :=
        List.map_congr_left this
    _ = l := List.map_id l

theorem hashes_updateById (sid : Nat) (f : AuthSession → AuthSession)
    (l : List AuthSession) (h2 : Hash)
    (hfh : ∀ r, (f r).refresh_token_hash = h2) :
    ∀ y ∈ (updateById sid f l).map AuthSession.refresh_token_hash,
      y = h2 ∨ y ∈ l.map AuthSession.refresh_token_hash := by
  intro y hy
  rw [updateById, List.map_map, List.mem_map] at hy
  obtain ⟨r, hr, hry⟩ := hy
  rw [Function.comp_apply] at hry
  by_cases hc : r.id = sid
  · left
    rw [if_pos hc] at hry
    rw [← hry, hfh]
  · right
    rw [if_neg hc] at hry
    rw [← hry]
    exact List.mem_map_of_mem _ hr

theorem nodup_hash_updateById (sid : Nat) (h2 : Hash)
    (f : AuthSession → AuthSession) (l : List AuthSession)
    (hfh : ∀ r, (f r).refresh_token_hash = h2)
    (hid : (l.map AuthSession.id).Nodup)
    (hh : (l.map AuthSession.refresh_token_hash).Nodup)
    (hguard : ∀ r ∈ l, ¬ r.id = sid → r.refresh_token_hash ≠ h2) :
    ((updateById sid f l).map AuthSession.refresh_token_hash).Nodup := by
  induction l with
  | nil => exact List.nodup_nil
  | cons a l ih =>
    have hstep : updateById sid f (a :: l) =
        (if a.id = sid then f a else a) :: updateById sid f l := by
      rw [updateById, updateById, List.map_cons]
    rw [hstep]
    rw [List.map_cons, List.nodup_cons] at hid hh ⊢
    by_cases ha : a.id = sid
    · have hl : ∀ r ∈ l, ¬ r.id = sid := by
        intro r hr hc
        apply hid.1
        have hra : r.id = a.id := by rw [hc, ha]
        rw [← hra]
        exact List.mem_map_of_mem _ hr
      rw [if_pos ha, updateById_of_no_match sid f l hl, hfh]
      refine ⟨?_, hh.2⟩
      intro hcon
      rw [List.mem_map] at hcon
      obtain ⟨r, hr, hrh⟩ := hcon
      exact hguard r (List.mem_cons_of_mem a hr) (hl r hr) hrh
    · rw [if_neg ha]
      refine ⟨?_, ih hid.2 hh.2 (fun r hr => hguard r
        (List.mem_cons_of_mem a hr))⟩
      intro hcon
      rcases hashes_updateById sid f l h2 hfh _ hcon with hy | hy
      · exact hguard a (List.mem_cons_self a l) ha hy
      · exact hh.1 hy

theorem inv_create (cfg : Config) (db : DB) (t : Nat) (uid : Int)
    (tok : Token) (dev : String) (pr : DB × AuthSession)
    (hinv : StoreInv db)
    (h : create_auth_session cfg db t uid tok dev = some pr) :
    StoreInv pr.1 := by
  obtain ⟨hid, hbound, hhash, hpair⟩ := hinv
  unfold create_auth_session at h
  by_cases hc1 : (revokeFirst uid dev t db.sessions).any
      (fun r => decide (r.user_id = uid ∧ r.device_id = dev)) = true
  · rw [if_pos hc1] at h
    cases h
  rw [if_neg hc1] at h
  by_cases hc2 : (revokeFirst uid dev t db.sessions).any
      (fun r => decide (r.refresh_token_hash = hash_refresh_token tok)) =
      true
  · rw [if_pos hc2] at h
    cases h
  rw [if_neg hc2] at h
  injection h with h1
  rw [← h1]
  have hall1 : ∀ r ∈ revokeFirst uid dev t db.sessions,
      ¬(r.user_id = uid ∧ r.device_id = dev) := by
    intro r hr hcon
    exact hc1 (List.any_eq_true.mpr ⟨r, hr, decide_eq_true hcon⟩)
  have hall2 : ∀ r ∈ revokeFirst uid dev t db.sessions,
      ¬ r.refresh_token_hash = hash_refresh_token tok := by
    intro r hr hcon
    exact hc2 (List.any_eq_true.mpr ⟨r, hr, decide_eq_true hcon⟩)
  have hids : (revokeFirst uid dev t db.sessions ++
        [newSession cfg db t uid tok dev]).map AuthSession.id =
      db.sessions.map AuthSession.id ++ [db.nextSessionId] := by
    rw [List.map_append, revokeFirst_map_id]
    rfl
  have hhs : (revokeFirst uid dev t db.sessions ++
        [newSession cfg db t uid tok dev]).map
        AuthSession.refresh_token_hash =
      db.sessions.map AuthSession.refresh_token_hash ++
        [hash_refresh_token tok] := by
    rw [List.map_append, revokeFirst_map_hash]
    rfl
  refine ⟨?_, ?_, ?_, ?_⟩
  · show ((revokeFirst uid dev t db.sessions ++
      [newSession cfg db t uid tok dev]).map AuthSession.id).Nodup
    rw [hids, List.nodup_append_comm]
    rw [show ([db.nextSessionId] ++ db.sessions.map AuthSession.id) =
      db.nextSessionId :: db.sessions.map AuthSession.id from rfl]
    rw [List.nodup_cons]
    refine ⟨?_, hid⟩
    intro hmem
    exact Nat.lt_irrefl _ (hbound _ hmem)
  · show ∀ i ∈ (revokeFirst uid dev t db.sessions ++
      [newSession cfg db t uid tok dev]).map AuthSession.id,
      i < db.nextSessionId + 1
    intro i hi
    rw [hids, List.mem_append] at hi
    rcases hi with hi | hi
    · exact Nat.lt_succ_of_lt (hbound i hi)
    · rw [List.mem_singleton] at hi
      rw [hi]
      exact Nat.lt_succ_self _
  · show ((revokeFirst uid dev t db.sessions ++
      [newSession cfg db t uid tok dev]).map
        AuthSession.refresh_token_hash).Nodup
    rw [hhs, List.nodup_append_comm]
    rw [show ([hash_refresh_token tok] ++
      db.sessions.map AuthSession.refresh_token_hash) =
      hash_refresh_token tok ::
        db.sessions.map AuthSession.refresh_token_hash from rfl]
    rw [List.nodup_cons]
    refine ⟨?_, hhash⟩
    intro hmem
    rw [← revokeFirst_map_hash uid dev t, List.mem_map] at hmem
    obtain ⟨r, hr, hrh⟩ := hmem
    exact hall2 r hr hrh
  · intro u d
    show pairCount u d (revokeFirst uid dev t db.sessions ++
      [newSession cfg db t uid tok dev]) ≤ 1
    unfold pairCount
    rw [List.countP_append]
    by_cases hud : u = uid ∧ d = dev
    · have hz : (revokeFirst uid dev t db.sessions).countP
          (sessionPair u d) = 0 := by
        rw [List.countP_eq_zero]
        intro r hr hcon
        rw [sessionPair, decide_eq_true_eq] at hcon
        exact hall1 r hr ⟨hcon.1.trans hud.1, hcon.2.1.trans hud.2⟩
      rw [hz, Nat.zero_add]
      rw [show ([newSession cfg db t uid tok dev].countP
        (sessionPair u d)) = if sessionPair u d
          (newSession cfg db t uid tok dev) then 1 else 0 by
        simp [List.countP_cons]]
      split
      · exact Nat.le_refl 1
      · exact Nat.zero_le 1
    · have hz : ([newSession cfg db t uid tok dev].countP
          (sessionPair u d)) = 0 := by
        rw [List.countP_eq_zero]
        intro r hr
        rw [List.mem_singleton] at hr
        rw [hr, sessionPair, decide_eq_true_eq]
        intro hcon
        exact hud ⟨hcon.1.symm, hcon.2.1.symm⟩
      rw [hz, Nat.add_zero]
      exact le_trans (revokeFirst_pairCount_le uid u dev d t db.sessions)
        (hpair u d)

theorem frozen_create (cfg : Config) (db : DB) (t : Nat) (uid : Int)
    (tok : Token) (dev : String) (pr : DB × AuthSession)
    (h : create_auth_session cfg db t uid tok dev = some pr)
    (s : AuthSession) (hs : s ∈ db.sessions) (hr : s.revoked = true) :
    s ∈ pr.1.sessions := by
  unfold create_auth_session at h
  by_cases hc1 : (revokeFirst uid dev t db.sessions).any
      (fun r => decide (r.user_id = uid ∧ r.device_id = dev)) = true
  · rw [if_pos hc1] at h
    cases h
  rw [if_neg hc1] at h
  by_cases hc2 : (revokeFirst uid dev t db.sessions).any
      (fun r => decide (r.refresh_token_hash = hash_refresh_token tok)) =
      true
  · rw [if_pos hc2] at h
    cases h
  rw [if_neg hc2] at h
  injection h with h1
  rw [← h1]
  exact List.mem_append_left _ (revokeFirst_frozen uid dev t _ s hs hr)

theorem refresh_read_rotate (cfg : Config) (db : DB) (t : Nat)
    (tok? : Option Token) (dev? : Option String) (s : AuthSession)
    (uid : Int)
    (h : refresh_read cfg db t tok? dev? = RefreshRead.rotate s uid) :
    s ∈ db.sessions ∧ s.revoked = false := by
  rcases tok? with _ | tok
  · simp [refresh_read] at h
  rcases dev? with _ | dev
  · simp [refresh_read] at h
  simp only [refresh_read] at h
  by_cases hdev : dev = ""
  · rw [if_pos hdev] at h
    cases h
  rw [if_neg hdev] at h
  rcases hv : verify_token cfg.secret t tok "refresh" with _ | p
  · simp only [hv] at h
    cases h
  simp only [hv] at h
  rcases hu : truthyId p.user_id with _ | uid2
  · simp only [hu] at h
    cases h
  simp only [hu] at h
  rcases hl : refresh_lookup db uid2 dev (hash_refresh_token tok) t
      with _ | s0
  · simp only [hl] at h
    cases h
  simp only [hl] at h
  by_cases hrev : s0.revoked = true
  · rw [if_pos hrev] at h
    cases h
  rw [if_neg hrev] at h
  by_cases hus : db.users.any (fun u => decide (u.id = uid2)) = true
  · rw [if_pos hus] at h
    injection h with h1 h2
    rw [refresh_lookup] at hl
    rw [← h1]
    exact ⟨List.mem_of_find?_eq_some hl, Bool.eq_false_iff.mpr hrev⟩
  · rw [if_neg hus] at h
    cases h

theorem validate_spec (cfg : Config) (db : DB) (t : Nat) (tok : Token)
    (os : Option AuthSession) (db1 : DB)
    (h : validate_refresh_token cfg db t tok = (os, db1)) :
    (os = none ∧ db1 = db) ∨
    ∃ uid s,
      db.sessions.find? (validPred uid (hash_refresh_token tok) t) =
        some s ∧
      os = some { s with last_used_at := some t } ∧
      db1 = { db with sessions :=
        (updateById s.id (fun r => { r with last_used_at := some t })
          db.sessions) } := by
  rw [validate_refresh_token] at h
  rcases hv : verify_token cfg.secret t tok "refresh" with _ | p
  · simp only [hv] at h
    injection h with h1 h2
    exact Or.inl ⟨h1.symm, h2.symm⟩
  simp only [hv] at h
  rcases hu : truthyId p.user_id with _ | uid
  · simp only [hu] at h
    injection h with h1 h2
    exact Or.inl ⟨h1.symm, h2.symm⟩
  simp only [hu] at h
  rcases hl : db.sessions.find? (validPred uid (hash_refresh_token tok) t)
      with _ | s
  · simp only [hl] at h
    injection h with h1 h2
    exact Or.inl ⟨h1.symm, h2.symm⟩
  · simp only [hl] at h
    injection h with h1 h2
    exact Or.inr ⟨uid, s, hl, h1.symm, h2.symm⟩

theorem storeInv_congr (db db2 : DB) (hs : db2.sessions = db.sessions)
    (hn : db2.nextSessionId = db.nextSessionId) (hinv : StoreInv db) :
    StoreInv db2 := by
  obtain ⟨h1, h2, h3, h4⟩ := hinv
  refine ⟨?_, ?_, ?_, ?_⟩
  · rw [hs]; exact h1
  · rw [hs, hn]; exact h2
  · rw [hs]; exact h3
  · intro u d; rw [hs]; exact h4 u d

theorem create_user_sessions (db : DB) (n e pw : String)
    (pr : DB × Int) (h : create_user db n e pw = some pr) :
    pr.1.sessions = db.sessions ∧ pr.1.nextSessionId = db.nextSessionId
    := by
  rw [create_user] at h
  by_cases hc : db.users.any (fun u => decide (u.email = e)) = true
  · rw [if_pos hc] at h
    cases h
  · rw [if_neg hc] at h
    injection h with h1
    rw [← h1]
    exact ⟨rfl, rfl⟩

theorem inv_updateById_pres (db : DB) (sid : Nat)
    (f : AuthSession → AuthSession)
    (hfid : ∀ r, (f r).id = r.id)
    (hfh : ∀ r, (f r).refresh_token_hash = r.refresh_token_hash)
    (hfp : ∀ u d r, sessionPair u d (f r) = true →
      sessionPair u d r = true)
    (hinv : StoreInv db) :
    StoreInv { db with sessions := updateById sid f db.sessions } := by
  refine inv_sessions_update db _ ?_ ?_ ?_ hinv
  · rw [updateById]
    apply map_pres_field
    intro r
    by_cases hc : r.id = sid
    · rw [if_pos hc]; exact hfid r
    · rw [if_neg hc]
  · rw [updateById]
    apply map_pres_field
    intro r
    by_cases hc : r.id = sid
    · rw [if_pos hc]; exact hfh r
    · rw [if_neg hc]
  · intro u d
    unfold pairCount
    rw [updateById]
    apply map_countP_le
    intro r hp
    by_cases hc : r.id = sid
    · rw [if_pos hc] at hp; exact hfp u d r hp
    · rw [if_neg hc] at hp; exact hp

theorem inv_revokeAllFor (db : DB) (uid : Int) (t : Nat)
    (hinv : StoreInv db) :
    StoreInv { db with sessions := revokeAllFor uid t db.sessions } := by
  refine inv_sessions_update db _ ?_ ?_ ?_ hinv
  · rw [revokeAllFor]
    apply map_pres_field
    intro r
    by_cases hc : r.user_id = uid ∧ r.revoked = false
    · rw [if_pos hc]
    · rw [if_neg hc]
  · rw [revokeAllFor]
    apply map_pres_field
    intro r
    by_cases hc : r.user_id = uid ∧ r.revoked = false
    · rw [if_pos hc]
    · rw [if_neg hc]
  · intro u d
    unfold pairCount
    rw [revokeAllFor]
    apply map_countP_le
    intro r hp
    by_cases hc : r.user_id = uid ∧ r.revoked = false
    · rw [if_pos hc] at hp
      rw [sessionPair, decide_eq_true_eq] at hp
      cases hp.2.2
    · rw [if_neg hc] at hp
      exact hp

theorem inv_refresh_write (cfg : Config) (db : DB) (t : Nat) (sid : Nat)
    (uid : Int) (hinv : StoreInv db) :
    StoreInv (refresh_write cfg db t sid uid).2 := by
  rw [refresh_write]
  by_cases hg : db.sessions.any (fun r =>
      decide (¬ r.id = sid ∧ r.refresh_token_hash =
        hash_refresh_token (generate_tokens cfg uid t).2)) = true
  · rw [if_pos hg]
    exact hinv
  rw [if_neg hg]
  obtain ⟨hid, hbound, hhash, hpair⟩ := hinv
  have hguard : ∀ r ∈ db.sessions, ¬ r.id = sid →
      r.refresh_token_hash ≠
        hash_refresh_token (generate_tokens cfg uid t).2 := by
    intro r hr hne hcon
    exact hg (List.any_eq_true.mpr ⟨r, hr, decide_eq_true ⟨hne, hcon⟩⟩)
  have hidup : (updateById sid (rotateUpd
      (hash_refresh_token (generate_tokens cfg uid t).2) t
      cfg.refreshDays) db.sessions).map AuthSession.id =
      db.sessions.map AuthSession.id := by
    rw [updateById]
    apply map_pres_field
    intro r
    by_cases hc : r.id = sid
    · rw [if_pos hc]; rfl
    · rw [if_neg hc]
  refine ⟨?_, ?_, ?_, ?_⟩
  · show ((updateById sid (rotateUpd (hash_refresh_token
      (generate_tokens cfg uid t).2) t cfg.refreshDays)
      db.sessions).map AuthSession.id).Nodup
    rw [hidup]
    exact hid
  · show ∀ i ∈ (updateById sid (rotateUpd (hash_refresh_token
      (generate_tokens cfg uid t).2) t cfg.refreshDays)
      db.sessions).map AuthSession.id, i < db.nextSessionId
    intro i hi
    rw [hidup] at hi
    exact hbound i hi
  · show ((updateById sid (rotateUpd (hash_refresh_token
      (generate_tokens cfg uid t).2) t cfg.refreshDays)
      db.sessions).map AuthSession.refresh_token_hash).Nodup
    exact nodup_hash_updateById sid _ _ db.sessions (fun r => rfl) hid
      hhash hguard
  · intro u d
    show pairCount u d (updateById sid (rotateUpd (hash_refresh_token
      (generate_tokens cfg uid t).2) t cfg.refreshDays) db.sessions) ≤ 1
    unfold pairCount
    rw [updateById]
    have he : (db.sessions.map (fun r => if r.id = sid then rotateUpd
        (hash_refresh_token (generate_tokens cfg uid t).2) t
        cfg.refreshDays r else r)).countP (sessionPair u d) =
        db.sessions.countP (sessionPair u d) := by
      apply map_countP_eq
      intro r
      by_cases hc : r.id = sid
      · rw [if_pos hc]
        simp [sessionPair, rotateUpd]
      · rw [if_neg hc]
    rw [he]
    exact hpair u d

theorem refresh_read_halt (cfg : Config) (db : DB) (t : Nat)
    (tok? : Option Token) (dev? : Option String) (r : RefreshResult)
    (db1 : DB) (h : refresh_read cfg db t tok? dev? =
      RefreshRead.halt r db1) :
    db1 = db ∨ ∃ uid, db1 =
      { db with sessions := revokeAllFor uid t db.sessions } := by
  rcases tok? with _ | tok
  · simp [refresh_read] at h
    exact Or.inl h.2.symm
  rcases dev? with _ | dev
  · simp [refresh_read] at h
    exact Or.inl h.2.symm
  simp only [refresh_read] at h
  by_cases hdev : dev = ""
  · rw [if_pos hdev] at h
    injection h with h1 h2
    exact Or.inl h2.symm
  rw [if_neg hdev] at h
  rcases hv : verify_token cfg.secret t tok "refresh" with _ | p
  · simp only [hv] at h
    injection h with h1 h2
    exact Or.inl h2.symm
  simp only [hv] at h
  rcases hu : truthyId p.user_id with _ | uid2
  · simp only [hu] at h
    injection h with h1 h2
    exact Or.inl h2.symm
  simp only [hu] at h
  rcases hl : refresh_lookup db uid2 dev (hash_refresh_token tok) t
      with _ | s0
  · simp only [hl] at h
    injection h with h1 h2
    exact Or.inl h2.symm
  simp only [hl] at h
  by_cases hrev : s0.revoked = true
  · rw [if_pos hrev] at h
    injection h with h1 h2
    exact Or.inr ⟨uid2, h2.symm⟩
  rw [if_neg hrev] at h
  by_cases hus : db.users.any (fun u => decide (u.id = uid2)) = true
  · rw [if_pos hus] at h
    cases h
  · rw [if_neg hus] at h
    injection h with h1 h2
    exact Or.inl h2.symm

theorem inv_stepOp (cfg : Config) (db : DB) (op : Op) (db2 : DB)
    (hinv : StoreInv db) (h : stepOp cfg db op = db2) : StoreInv db2 := by
  cases op with
  | register n e pw d t =>
    simp only [stepOp, register_handler] at h
    rcases hcu : create_user db n e pw with _ | ⟨db1, uid⟩
    · simp only [hcu] at h
      rw [← h]
      exact hinv
    simp only [hcu] at h
    have htr := create_user_sessions db n e pw (db1, uid) hcu
    have hinv1 : StoreInv db1 := storeInv_congr db db1 htr.1 htr.2 hinv
    rcases hca : create_auth_session cfg db1 t uid
        (generate_tokens cfg uid t).2 d with _ | ⟨db3, s3⟩
    · simp only [hca] at h
      rw [← h]
      exact hinv1
    · simp only [hca] at h
      rw [← h]
      exact inv_create cfg db1 t uid _ d (db3, s3) hinv1 hca
  | login e pw d t =>
    simp only [stepOp, login_handler] at h
    rcases hau : authenticate_user db e pw with _ | uid
    · simp only [hau] at h
      rw [← h]
      exact hinv
    simp only [hau] at h
    rcases hca : create_auth_session cfg db t uid
        (generate_tokens cfg uid t).2 d with _ | ⟨db3, s3⟩
    · simp only [hca] at h
      rw [← h]
      exact hinv
    · simp only [hca] at h
      rw [← h]
      exact inv_create cfg db t uid _ d (db3, s3) hinv hca
  | refresh tok dev t =>
    simp only [stepOp, refresh_handler] at h
    rcases hrr : refresh_read cfg db t tok dev with ⟨r, db1⟩ | ⟨s, uid⟩
    · simp only [hrr] at h
      rcases refresh_read_halt cfg db t tok dev r db1 hrr with h1 |
          ⟨uid, h1⟩
      · rw [← h, h1]
        exact hinv
      · rw [← h, h1]
        exact inv_revokeAllFor db uid t hinv
    · simp only [hrr] at h
      rw [← h]
      exact inv_refresh_write cfg db t s.id uid hinv
  | logout tok dev t =>
    simp only [stepOp] at h
    rcases tok with _ | tk
    · simp only [logout_handler] at h
      rw [← h]
      exact hinv
    rcases dev with _ | dv
    · simp only [logout_handler] at h
      rw [← h]
      exact hinv
    simp only [logout_handler] at h
    by_cases hdv : dv = ""
    · rw [if_pos hdv] at h
      simp only at h
      rw [← h]
      exact hinv
    rw [if_neg hdv] at h
    rcases hval : validate_refresh_token cfg db t tk with ⟨os, db1⟩
    rcases os with _ | s1
    · simp only [hval] at h
      rcases validate_spec cfg db t tk none db1 hval with ⟨_, h2⟩ |
          ⟨uid, sx, _, hos, _⟩
      · rw [← h, h2]
        exact hinv
      · cases hos
    · simp only [hval] at h
      rcases validate_spec cfg db t tk (some s1) db1 hval with ⟨hos, _⟩ |
          ⟨uid, sx, hfnd, hos, hdb1⟩
      · cases hos
      · have hinv1 : StoreInv db1 := by
          rw [hdb1]
          exact inv_updateById_pres db sx.id _ (fun r => rfl)
            (fun r => rfl)
            (fun u d r hp => by
              rw [sessionPair, decide_eq_true_eq] at hp ⊢
              exact ⟨hp.1, hp.2.1, hp.2.2⟩) hinv
        rw [← h]
        exact inv_updateById_pres db1 s1.id _ (fun r => rfl)
          (fun r => rfl)
          (fun u d r hp => by
            rw [sessionPair, decide_eq_true_eq] at hp
            cases hp.2.2) hinv1

theorem mem_id_unique (l : List AuthSession)
    (hnd : (l.map AuthSession.id).Nodup) (a b : AuthSession) (ha : a ∈ l)
    (hb : b ∈ l) (heq : a.id = b.id) : a = b :=
  List.inj_on_of_nodup_map hnd ha hb heq

theorem frozen_refresh_write (cfg : Config) (db : DB) (t : Nat)
    (sid : Nat) (uid : Int) (s : AuthSession) (hs : s ∈ db.sessions)
    (hne : ¬ s.id = sid) :
    s ∈ (refresh_write cfg db t sid uid).2.sessions := by
  rw [refresh_write]
  by_cases hg : db.sessions.any (fun r =>
      decide (¬ r.id = sid ∧ r.refresh_token_hash =
        hash_refresh_token (generate_tokens cfg uid t).2)) = true
  · rw [if_pos hg]
    exact hs
  · rw [if_neg hg]
    show s ∈ updateById sid (rotateUpd (hash_refresh_token
      (generate_tokens cfg uid t).2) t cfg.refreshDays) db.sessions
    exact frozen_updateById sid _ db.sessions s hs hne

theorem frozen_stepOp (cfg : Config) (db : DB) (op : Op) (db2 : DB)
    (s : AuthSession) (hinv : StoreInv db) (h : stepOp cfg db op = db2)
    (hs : s ∈ db.sessions) (hr : s.revoked = true) :
    s ∈ db2.sessions := by
  cases op with
  | register n e pw d t =>
    simp only [stepOp, register_handler] at h
    rcases hcu : create_user db n e pw with _ | ⟨db1, uid⟩
    · simp only [hcu] at h
      rw [← h]
      exact hs
    simp only [hcu] at h
    have htr := create_user_sessions db n e pw (db1, uid) hcu
    have hs1 : s ∈ db1.sessions := by
      rw [show (db1, uid).1 = db1 from rfl] at htr
      rw [htr.1]
      exact hs
    rcases hca : create_auth_session cfg db1 t uid
        (generate_tokens cfg uid t).2 d with _ | ⟨db3, s3⟩
    · simp only [hca] at h
      rw [← h]
      exact hs1
    · simp only [hca] at h
      rw [← h]
      exact frozen_create cfg db1 t uid _ d (db3, s3) hca s hs1 hr
  | login e pw d t =>
    simp only [stepOp, login_handler] at h
    rcases hau : authenticate_user db e pw with _ | uid
    · simp only [hau] at h
      rw [← h]
      exact hs
    simp only [hau] at h
    rcases hca : create_auth_session cfg db t uid
        (generate_tokens cfg uid t).2 d with _ | ⟨db3, s3⟩
    · simp only [hca] at h
      rw [← h]
      exact hs
    · simp only [hca] at h
      rw [← h]
      exact frozen_create cfg db t uid _ d (db3, s3) hca s hs hr
  | refresh tok dev t =>
    simp only [stepOp, refresh_handler] at h
    rcases hrr : refresh_read cfg db t tok dev with ⟨r, db1⟩ | ⟨s0, uid⟩
    · simp only [hrr] at h
      rcases refresh_read_halt cfg db t tok dev r db1 hrr with h1 |
          ⟨uid, h1⟩
      · rw [← h, h1]
        exact hs
      · rw [← h, h1]
        show s ∈ revokeAllFor uid t db.sessions
        rw [revokeAllFor]
        apply frozen_map _ _ _ hs
        rw [if_neg]
        intro hcon
        rw [hr] at hcon
        cases hcon.2
    · simp only [hrr] at h
      obtain ⟨hmem0, hrev0⟩ := refresh_read_rotate cfg db t tok dev s0
        uid hrr
      have hne : ¬ s.id = s0.id := by
        intro heq
        have := mem_id_unique db.sessions hinv.1 s s0 hs hmem0 heq
        rw [this, hrev0] at hr
        cases hr
      rw [← h]
      exact frozen_refresh_write cfg db t s0.id uid s hs hne
  | logout tok dev t =>
    simp only [stepOp] at h
    rcases tok with _ | tk
    · simp only [logout_handler] at h
      rw [← h]
      exact hs
    rcases dev with _ | dv
    · simp only [logout_handler] at h
      rw [← h]
      exact hs
    simp only [logout_handler] at h
    by_cases hdv : dv = ""
    · rw [if_pos hdv] at h
      simp only at h
      rw [← h]
      exact hs
    rw [if_neg hdv] at h
    rcases hval : validate_refresh_token cfg db t tk with ⟨os, db1⟩
    rcases os with _ | s1
    · simp only [hval] at h
      rcases validate_spec cfg db t tk none db1 hval with ⟨_, h2⟩ |
          ⟨uid, sx, _, hos, _⟩
      · rw [← h, h2]
        exact hs
      · cases hos
    · simp only [hval] at h
      rcases validate_spec cfg db t tk (some s1) db1 hval with ⟨hos, _⟩ |
          ⟨uid, sx, hfnd, hos, hdb1⟩
      · cases hos
      · have hmemx : sx ∈ db.sessions := List.mem_of_find?_eq_some hfnd
        have hrevx : sx.revoked = false := by
          have := List.find?_some hfnd
          rw [validPred, decide_eq_true_eq] at this
          exact this.2.2.1
        have hne : ¬ s.id = sx.id := by
          intro heq
          have := mem_id_unique db.sessions hinv.1 s sx hs hmemx heq
          rw [this, hrevx] at hr
          cases hr
        have hs1 : s ∈ db1.sessions := by
          rw [hdb1]
          exact frozen_updateById sx.id _ db.sessions s hs hne
        have hids1 : s1.id = sx.id := by
          injection hos with hos1
          rw [hos1]
        rw [← h]
        show s ∈ updateById s1.id
          (fun r => { r with revoked := true, revoked_at := some t })
          db1.sessions
        rw [hids1]
        exact frozen_updateById sx.id _ db1.sessions s hs1 hne

theorem inv_applyOps (cfg : Config) (ops : List Op) (db : DB)
    (hinv : StoreInv db) : StoreInv (applyOps cfg db ops) := by
  induction ops generalizing db with
  | nil => exact hinv
  | cons op rest ih =>
    exact ih _ (inv_stepOp cfg db op _ hinv rfl)

theorem frozen_applyOps (cfg : Config) (ops : List Op) (db : DB)
    (s : AuthSession) (hinv : StoreInv db) (hs : s ∈ db.sessions)
    (hr : s.revoked = true) : s ∈ (applyOps cfg db ops).sessions := by
  induction ops generalizing db with
  | nil => exact hs
  | cons op rest ih =>
    exact ih _ (inv_stepOp cfg db op _ hinv rfl)
      (frozen_stepOp cfg db op _ s hinv rfl hs hr)

/-- Claim C4: starting from the empty store, after any finite sequence of
register, login, refresh and logout requests — over every choice of
inputs, minted device ids and clock readings — every (user id, device id)
pair has at most one non-revoked session: creation revokes (and, under the
schema pair constraint, excludes) any existing session of the pair before
inserting, rotation mutates the single matching record in place, and
revocation only sets flags. -/
theorem C4_at_most_one_active_per_pair (cfg : Config) (ops : List Op)
    (u : Int) (d : String) :
    pairCount u d (applyOps cfg emptyDB ops).sessions ≤ 1 :=
  (inv_applyOps cfg ops emptyDB inv_emptyDB).2.2.2 u d

/-- Claim C7: in every reachable store, no two session rows — revoked or
not, same user or not — hold the same refresh-credential hash: the unique
constraint on refresh_token_hash fails any commit that would duplicate a
digest (the whole request then fails with 500 and mutates nothing), so the
digest column stays pairwise distinct after every register, login and
refresh, including operations for the same user at the same clock
reading. -/
theorem C7_refresh_hash_unique (cfg : Config) (ops : List Op) :
    (applyOps cfg emptyDB ops).sessions.Pairwise
      (fun a b => a.refresh_token_hash ≠ b.refresh_token_hash) := by
  have h := (inv_applyOps cfg ops emptyDB inv_emptyDB).2.2.1
  rw [List.Nodup, List.pairwise_map] at h
  exact h

/-- Claim C6: revocation is terminal.  In every reachable store, a session
record with revoked = true is left untouched by every further operation:
the record itself survives every subsequent request sequence unchanged,
and any row bearing its primary key is that very record — so the revoked
flag is never cleared and no new credential hash is ever written into a
revoked session. -/
theorem C6_revocation_terminal (cfg : Config) (ops more : List Op)
    (s : AuthSession)
    (hs : s ∈ (applyOps cfg emptyDB ops).sessions)
    (hr : s.revoked = true) :
    s ∈ (applyOps cfg (applyOps cfg emptyDB ops) more).sessions ∧
    ∀ s2 ∈ (applyOps cfg (applyOps cfg emptyDB ops) more).sessions,
      s2.id = s.id → s2 = s := by
  have hinv := inv_applyOps cfg ops emptyDB inv_emptyDB
  have hmem := frozen_applyOps cfg more _ s hinv hs hr
  refine ⟨hmem, ?_⟩
  intro s2 hs2 heq
  have hinv2 := inv_applyOps cfg more _ hinv
  exact mem_id_unique _ hinv2.1 s2 s hs2 hmem heq

/-- Fixture: register user a@x.com on device d at clock 0, then log that
session out at clock 1000000. -/
def opsReg : List Op :=
  [Op.register "n" "a@x.com" "pw" "d" 0,
   Op.logout (some refTok0) (some "d") 1000000]

/-- Fixture: a further login on a second device at clock 3000000. -/
def opsMore : List Op :=
  [Op.login "a@x.com" "pw" "e" 3000000]

/-- Fixture: the revoked session record produced by opsReg. -/
def sessRevoked : AuthSession :=
  { sess0 with last_used_at := some 1000000, revoked := true,
               revoked_at := some 1000000 }

/-- Witness for C6 at concrete inputs: the session revoked by the logout in
opsReg survives a later login unchanged. -/
theorem C6_witness :
    sessRevoked ∈
      (applyOps cfg0 (applyOps cfg0 emptyDB opsReg) opsMore).sessions :=
  (C6_revocation_terminal cfg0 opsReg opsMore sessRevoked (by decide)
    (by decide)).1
